import Mathlib

/-!
Verification of the Fleet Status Synchronization & Action Dispatch subsystem
(frontend components `FleetControl.tsx` and `FleetStatus.tsx`).

The definitions below are a shallow embedding of the TypeScript source:
pure render expressions become Lean functions, the React state handled by the
stream / timer / click callbacks becomes explicit state records with a step
function over discrete events, and every `fetch` call is recorded explicitly
(either as a produced request value or as an entry in a log of issue times).
-/

/- ===================== Data model (FleetControl.tsx / FleetStatus.tsx) ===================== -/

/-- Agent `type` field: `'cli' | 'desktop' | 'remote'` (optional in the source). -/
inductive AgentType
  | cli
  | desktop
  | remote
  deriving DecidableEq, Repr

/-- The `Agent` interface of `FleetControl.tsx` / `FleetStatus.tsx`.  Optional
fields are `Option`s; a missing `type` stays `none`, never defaulted. -/
structure Agent where
  id : String
  name : String
  online : Bool
  status : String
  inbox_count : Nat
  type : Option AgentType := none
  current_task : Option String := none
  task_status : Option String := none
  last_status_line : Option String := none
  deriving DecidableEq, Repr

/-- The `FleetStatusResponse` interface: agents plus the server-reported
aggregate counts.  Counts are `Int` because the client renders their JS-number
difference verbatim, even if the producer briefly violates its invariant. -/
structure FleetStatusResponse where
  agents : List Agent
  online_count : Int
  total_count : Int
  deriving DecidableEq, Repr

/-- JavaScript `v || d` for an optional string operand: `null`/`undefined`
and the empty string are falsy and select the default. -/
def jsOr (v : Option String) (d : String) : String :=
  match v with
  | some s => if s = "" then d else s
  | none => d

/-- JavaScript template interpolation of a possibly-undefined string
(`${json.status}` renders the literal text `undefined` when absent). -/
def jsTemplate (v : Option String) : String :=
  match v with
  | some s => s
  | none => "undefined"

/- ===================== Action dispatch (FleetControl.tsx) ===================== -/

/-- The `modal` descriptor of a `{status:"modal", modal:{...}}` payload
(`ModalData` interface in `FleetControl.tsx`). -/
structure ModalData where
  title : String
  instruction : String
  command : String
  deriving DecidableEq, Repr

/-- The parsed JSON body of an action response (`json.status`, `json.error`,
`json.modal` as read by `doAction` / `doContextAction`). -/
structure Body where
  status : Option String := none
  error : Option String := none
  modal : Option ModalData := none
  deriving DecidableEq, Repr

/-- Result of `await fetch(...)` followed by `await res.json()`:
`ok` (res.ok true), `httpError` (res.ok false, body parsed), or
`networkFailure` (the fetch or the body parse threw, with `err.message`). -/
inductive HttpResult
  | ok (body : Body)
  | httpError (body : Body)
  | networkFailure (msg : String)
  deriving DecidableEq, Repr

/-- Structured action outcome (spec vocabulary): `Completed(text)` is the
success banner, `Failed(msg)` the error banner, `ModalRequired` the modal. -/
inductive Outcome
  | completed (text : String)
  | failed (msg : String)
  | modalRequired (m : ModalData)
  deriving DecidableEq, Repr

/-- The observable effects of one dispatcher run, read off the handler body:
the outcome banner/modal, whether `fetchStatus()` was forced afterwards,
the `setTimeout` delay (if any) scheduled to auto-clear the banner, and the
in-flight marker value after the `finally` block. -/
structure DispatchResult where
  outcome : Outcome
  modal : Option ModalData
  refreshTriggered : Bool
  bannerTimeout : Option Nat
  actionLoadingAfter : Option String
  deriving DecidableEq, Repr

/-- `doAction` in `FleetControl.tsx`: on `res.ok` it sets the success banner
to `` `${label}: ${json.status}` `` and awaits `fetchStatus()`; on a non-ok
response it throws `json.error || 'Action failed'` into the catch; the
`finally` block always clears `actionLoading`.  No `setTimeout` is ever
scheduled on the banner. -/
def doActionResult (label : String) (r : HttpResult) : DispatchResult :=
  match r with
  | .ok body =>
      { outcome := .completed (label ++ ": " ++ jsTemplate body.status)
        modal := none
        refreshTriggered := true
        bannerTimeout := none
        actionLoadingAfter := none }
  | .httpError body =>
      { outcome := .failed (jsOr body.error "Action failed")
        modal := none
        refreshTriggered := false
        bannerTimeout := none
        actionLoadingAfter := none }
  | .networkFailure msg =>
      { outcome := .failed msg
        modal := none
        refreshTriggered := false
        bannerTimeout := none
        actionLoadingAfter := none }

/-- `doContextAction` in `FleetControl.tsx`: identical to `doAction` except
that on success it checks `json.status === 'modal' && json.modal` and opens
the modal instead of the banner, and it never calls `fetchStatus()` in any
branch.  No `setTimeout` is ever scheduled. -/
def doContextActionResult (label : String) (r : HttpResult) : DispatchResult :=
  match r with
  | .ok body =>
      match body.status, body.modal with
      | some "modal", some m =>
          { outcome := .modalRequired m
            modal := some m
            refreshTriggered := false
            bannerTimeout := none
            actionLoadingAfter := none }
      | _, _ =>
          { outcome := .completed (label ++ ": " ++ jsTemplate body.status)
            modal := none
            refreshTriggered := false
            bannerTimeout := none
            actionLoadingAfter := none }
  | .httpError body =>
      { outcome := .failed (jsOr body.error "Action failed")
        modal := none
        refreshTriggered := false
        bannerTimeout := none
        actionLoadingAfter := none }
  | .networkFailure msg =>
      { outcome := .failed msg
        modal := none
        refreshTriggered := false
        bannerTimeout := none
        actionLoadingAfter := none }

/-- `fleetInboxCheck` in `FleetStatus.tsx`: success banner is `json.status`
and is cleared by `setTimeout(..., 3000)`; the failure banner
(`json.error || 'Failed'`) has no timeout; `fleetActionLoading` is cleared
in the `finally` block. -/
def fleetInboxCheckResult (r : HttpResult) : DispatchResult :=
  match r with
  | .ok body =>
      { outcome := .completed (jsTemplate body.status)
        modal := none
        refreshTriggered := false
        bannerTimeout := some 3000
        actionLoadingAfter := none }
  | .httpError body =>
      { outcome := .failed (jsOr body.error "Failed")
        modal := none
        refreshTriggered := false
        bannerTimeout := none
        actionLoadingAfter := none }
  | .networkFailure msg =>
      { outcome := .failed msg
        modal := none
        refreshTriggered := false
        bannerTimeout := none
        actionLoadingAfter := none }

/-- `sendMessageToMain` in `FleetStatus.tsx`: success banner
`'Message sent to Main'` cleared by `setTimeout(..., 2000)`; failure banner
has no timeout. -/
def sendMessageToMainResult (r : HttpResult) : DispatchResult :=
  match r with
  | .ok _ =>
      { outcome := .completed "Message sent to Main"
        modal := none
        refreshTriggered := false
        bannerTimeout := some 2000
        actionLoadingAfter := none }
  | .httpError body =>
      { outcome := .failed (jsOr body.error "Failed")
        modal := none
        refreshTriggered := false
        bannerTimeout := none
        actionLoadingAfter := none }
  | .networkFailure msg =>
      { outcome := .failed msg
        modal := none
        refreshTriggered := false
        bannerTimeout := none
        actionLoadingAfter := none }

/-- `closeModal` in `FleetControl.tsx`: the only code path that clears the
modal (`setModal(null)`); there is no timer-driven clearing of the modal. -/
def closeModal (_modal : Option ModalData) : Option ModalData :=
  none

/- ===================== Credential and request construction ===================== -/

/-- `getApiKey` in `FleetControl.tsx`:
`localStorage.getItem('cv_api_key') || ''` — `null` (nothing stored)
and the stored empty string both yield `''`. -/
def getApiKey (stored : Option String) : String :=
  jsOr stored ""

/-- An issued HTTP request as built by the dispatchers (method, URL, and the
`X-API-Key` header value). -/
structure HttpRequest where
  method : String
  url : String
  apiKey : String
  deriving DecidableEq, Repr

/-- The request `doAction` issues before any response handling: `doAction`
has no client-side rejection path, so a request is produced for every call
(`some`), with whatever `getApiKey()` returns attached. -/
def doActionRequest (stored : Option String) (endpoint : String) : Option HttpRequest :=
  some { method := "POST", url := "/api" ++ endpoint, apiKey := getApiKey stored }

/-- The request `doContextAction` issues: same unconditional shape as
`doAction`. -/
def doContextActionRequest (stored : Option String) (endpoint : String) : Option HttpRequest :=
  some { method := "POST", url := "/api" ++ endpoint, apiKey := getApiKey stored }

/-- JS `!s.trim()`: the trimmed string is empty exactly when every character
of `s` is whitespace. -/
def jsBlank (s : String) : Bool :=
  s.data.all Char.isWhitespace

/-- The request `sendMessageToMain` in `FleetControl.tsx` issues, `none` when
the call is rejected client-side: it returns early when
`!mainMessage.trim()` and when `!apiKey`. -/
def sendMessageRequest (stored : Option String) (msg : String) : Option HttpRequest :=
  if jsBlank msg then none
  else if getApiKey stored = "" then none
  else some { method := "POST", url := "/api/fleet/send-message/cv2-main", apiKey := getApiKey stored }

/- ===================== FleetControl click-level state machine ===================== -/

/-- The FleetControl state that governs concurrent action execution:
`actionLoading` (the in-flight action identifier shared by `doAction` and
`doContextAction`), `sendingMessage` (the separate lock of
`sendMessageToMain`), and the number of currently open network calls of each
family. -/
structure ControlState where
  actionLoading : Option String
  sendingMessage : Bool
  openActionCalls : Nat
  openSendCalls : Nat
  deriving DecidableEq, Repr

/-- UI / completion events of the FleetControl surface.  `clickAction` is a
click on any button wired to `doAction` or `doContextAction` (every such
button carries `disabled={actionLoading !== null}`), `submitSend` is the
send-message form submit, and the `Resolve` events are the corresponding
`finally` blocks running when the awaited fetch settles. -/
inductive ControlEvent
  | clickAction (endpoint : String)
  | actionResolve
  | submitSend (msg : String)
  | sendResolve
  deriving DecidableEq, Repr

/-- One event step of the FleetControl surface.  A click on a disabled button
is a no-op (the browser never fires its handler); `sendMessageToMain` returns
early on an empty trimmed message or an empty API key but checks nothing
else — in particular it does not consult `actionLoading`. -/
def stepControl (apiKey : String) (s : ControlState) (e : ControlEvent) : ControlState :=
  match e with
  | .clickAction endpoint =>
      match s.actionLoading with
      | none =>
          { s with actionLoading := some endpoint, openActionCalls := s.openActionCalls + 1 }
      | some _ => s
  | .actionResolve =>
      match s.openActionCalls with
      | 0 => s
      | n + 1 => { s with actionLoading := none, openActionCalls := n }
  | .submitSend msg =>
      if s.sendingMessage then s
      else if jsBlank msg then s
      else if apiKey = "" then s
      else { s with sendingMessage := true, openSendCalls := s.openSendCalls + 1 }
  | .sendResolve =>
      match s.openSendCalls with
      | 0 => s
      | n + 1 => { s with sendingMessage := false, openSendCalls := n }

/-- Initial FleetControl state (`useState(null)` / `useState(false)`). -/
def initControl : ControlState :=
  { actionLoading := none, sendingMessage := false, openActionCalls := 0, openSendCalls := 0 }

/-- Run the FleetControl surface over a list of events. -/
def runControl (apiKey : String) (s : ControlState) (evs : List ControlEvent) : ControlState :=
  evs.foldl (stepControl apiKey) s

/-- The inductive lock invariant: the number of open `doAction` /
`doContextAction` network calls is 1 exactly while `actionLoading` is set. -/
def controlLockInv (s : ControlState) : Prop :=
  s.openActionCalls = (if s.actionLoading.isSome then 1 else 0)

theorem stepControl_lockInv (apiKey : String) (s : ControlState) (e : ControlEvent)
    (h : controlLockInv s) : controlLockInv (stepControl apiKey s e) := by
  cases e with
  | clickAction endpoint =>
      cases hA : s.actionLoading with
      | none => simp [controlLockInv, stepControl, hA] at h ⊢; omega
      | some v => simpa [controlLockInv, stepControl, hA] using h
  | actionResolve =>
      cases hN : s.openActionCalls with
      | zero => simpa [controlLockInv, stepControl, hN] using h
      | succ n =>
          cases hA : s.actionLoading with
          | none => simp [controlLockInv, hA, hN] at h
          | some v =>
              simp [controlLockInv, hA, hN] at h
              simp [controlLockInv, stepControl, hN, h]
  | submitSend msg =>
      simp only [stepControl]
      split
      · exact h
      split
      · exact h
      split
      · exact h
      · simpa [controlLockInv] using h
  | sendResolve =>
      cases hN : s.openSendCalls with
      | zero => simpa [controlLockInv, stepControl, hN] using h
      | succ n => simpa [controlLockInv, stepControl, hN] using h

theorem runControl_lockInv (apiKey : String) (evs : List ControlEvent) (s : ControlState)
    (h : controlLockInv s) : controlLockInv (runControl apiKey s evs) := by
  induction evs generalizing s with
  | nil => exact h
  | cons e rest ih => exact ih _ (stepControl_lockInv apiKey s e h)

/- ===================== FleetStatus live feed state machine ===================== -/

/-- A parsed stream message: `err` is the JS truthiness of `json.error`, and
`snap` is the payload read as a snapshot when `json.error` is falsy. -/
structure StreamPayload where
  err : Bool
  snap : FleetStatusResponse
  deriving DecidableEq, Repr

/-- Result of one `fetchStatus()` round trip in `FleetStatus.tsx`: success
with a parsed snapshot, or failure (network / non-ok / parse) with the
message stored by the catch block. -/
inductive FetchResult
  | ok (snap : FleetStatusResponse)
  | fail (msg : String)
  deriving DecidableEq, Repr

/-- The `connectionType` state: `'sse' | 'polling'`. -/
inductive ConnectionType
  | sse
  | polling
  deriving DecidableEq, Repr

/-- The FleetStatus component state relevant to the feed lifecycle:
`channelOpen` models a live `EventSource` in `eventSourceRef` (closed and
nulled on error/teardown), `nextPoll` / `termNextPoll` the next scheduled
fire times of the 5-second status interval and the 2-second terminal
interval (`none` = no timer), and `fetchLog` the issue times of every
`GET /api/fleet/status` one-shot. -/
structure FeedState where
  channelOpen : Bool
  connectionType : ConnectionType
  nextPoll : Option Nat
  termNextPoll : Option Nat
  tornDown : Bool
  data : Option FleetStatusResponse
  error : Option String
  loading : Bool
  sseToPollingCount : Nat
  fetchLog : List Nat
  deriving DecidableEq, Repr

/-- `fetchStatus` in `FleetStatus.tsx` applying its settled result:
success does `setData(json); setError(null)`, failure does
`setError(message)` unconditionally; `finally` does `setLoading(false)`. -/
def applyFetch (s : FeedState) (r : FetchResult) : FeedState :=
  match r with
  | .ok snap => { s with data := some snap, error := none, loading := false }
  | .fail m => { s with error := some m, loading := false }

/-- The `onmessage` handler of `startSSE`: a message that fails to parse is
swallowed by the catch, and a parsed message with a truthy `error` field is
skipped by the `if (!json.error)` guard; otherwise the payload replaces the
snapshot wholesale. -/
def handleStreamMessage (s : FeedState) (raw : Option StreamPayload) : FeedState :=
  match raw with
  | none => s
  | some p =>
      if p.err then s
      else { s with data := some p.snap, error := none, loading := false }

/-- Discrete events driving the feed: `EventSource` lifecycle callbacks
(each carrying its wall-clock time), the two interval timers firing, and the
effect cleanup.  `chanError` and `pollFire` carry the result of the
`fetchStatus()` they trigger. -/
inductive FeedEvent
  | chanOpen (t : Nat)
  | chanMessage (t : Nat) (raw : Option StreamPayload)
  | chanError (t : Nat) (r : FetchResult)
  | pollFire (t : Nat) (r : FetchResult)
  | termPollFire (t : Nat)
  | teardown (t : Nat)
  deriving DecidableEq, Repr

/-- One event step of the FleetStatus feed, from `startSSE`, `startPolling`
and the `useEffect` cleanup.  Channel callbacks only run while the
`EventSource` is live; on error the handler closes the channel, switches the
mode to polling and runs `startPolling` (immediate `fetchStatus()` at the
error's own time, then a 5000 ms interval); a timer fires only at its
scheduled time; teardown closes the channel and clears both intervals. -/
def stepFeed (s : FeedState) (e : FeedEvent) : FeedState :=
  match e with
  | .chanOpen _ =>
      if s.channelOpen then { s with connectionType := .sse, nextPoll := none } else s
  | .chanMessage _ raw =>
      if s.channelOpen then handleStreamMessage s raw else s
  | .chanError t r =>
      if s.channelOpen then
        applyFetch
          { s with channelOpen := false
                   connectionType := .polling
                   sseToPollingCount := s.sseToPollingCount + 1
                   fetchLog := s.fetchLog ++ [t]
                   nextPoll := some (t + 5000) } r
      else s
  | .pollFire t r =>
      if s.nextPoll = some t then
        applyFetch { s with fetchLog := s.fetchLog ++ [t], nextPoll := some (t + 5000) } r
      else s
  | .termPollFire t =>
      if s.termNextPoll = some t then { s with termNextPoll := some (t + 2000) } else s
  | .teardown _ =>
      { s with channelOpen := false, nextPoll := none, termNextPoll := none, tornDown := true }

/-- FleetStatus state right after mount: `startSSE` has created the
`EventSource`, `connectionType` starts as `'sse'`, no timers, no data,
`loading` true. -/
def initFeed : FeedState :=
  { channelOpen := true
    connectionType := .sse
    nextPoll := none
    termNextPoll := none
    tornDown := false
    data := none
    error := none
    loading := true
    sseToPollingCount := 0
    fetchLog := [] }

/-- Run the feed over a list of events. -/
def runFeed (s : FeedState) (evs : List FeedEvent) : FeedState :=
  evs.foldl stepFeed s

/-- `applyFetch` only touches `data`, `error` and `loading`. -/
theorem applyFetch_channelOpen (s : FeedState) (r : FetchResult) :
    (applyFetch s r).channelOpen = s.channelOpen := by cases r <;> rfl

theorem applyFetch_connectionType (s : FeedState) (r : FetchResult) :
    (applyFetch s r).connectionType = s.connectionType := by cases r <;> rfl

theorem applyFetch_sseToPollingCount (s : FeedState) (r : FetchResult) :
    (applyFetch s r).sseToPollingCount = s.sseToPollingCount := by cases r <;> rfl

theorem applyFetch_fetchLog (s : FeedState) (r : FetchResult) :
    (applyFetch s r).fetchLog = s.fetchLog := by cases r <;> rfl

theorem applyFetch_nextPoll (s : FeedState) (r : FetchResult) :
    (applyFetch s r).nextPoll = s.nextPoll := by cases r <;> rfl

/-- Once the channel is closed, no event reopens it, changes the connection
mode, or bumps the mode-transition count: `startSSE` runs only on mount. -/
theorem stepFeed_closed (s : FeedState) (e : FeedEvent) (h : s.channelOpen = false) :
    (stepFeed s e).channelOpen = false ∧
    (stepFeed s e).connectionType = s.connectionType ∧
    (stepFeed s e).sseToPollingCount = s.sseToPollingCount := by
  cases e with
  | chanOpen t => simp [stepFeed, h]
  | chanMessage t raw => simp [stepFeed, h]
  | chanError t r => simp [stepFeed, h]
  | pollFire t r =>
      simp only [stepFeed]
      split
      · simp [applyFetch_channelOpen, applyFetch_connectionType, applyFetch_sseToPollingCount, h]
      · simp [h]
  | termPollFire t =>
      simp only [stepFeed]
      split <;> simp [h]
  | teardown t => simp [stepFeed]

theorem runFeed_closed (s : FeedState) (evs : List FeedEvent) (h : s.channelOpen = false) :
    (runFeed s evs).channelOpen = false ∧
    (runFeed s evs).connectionType = s.connectionType ∧
    (runFeed s evs).sseToPollingCount = s.sseToPollingCount := by
  induction evs generalizing s with
  | nil => exact ⟨h, rfl, rfl⟩
  | cons e rest ih =>
      obtain ⟨h1, h2, h3⟩ := stepFeed_closed s e h
      obtain ⟨g1, g2, g3⟩ := ih (stepFeed s e) h1
      exact ⟨g1, g2.trans h2, g3.trans h3⟩

/-- A fully torn-down state absorbs every further event. -/
theorem stepFeed_torn (s : FeedState) (e : FeedEvent)
    (hch : s.channelOpen = false) (hnp : s.nextPoll = none)
    (htp : s.termNextPoll = none) (htd : s.tornDown = true) :
    stepFeed s e = s := by
  cases e with
  | chanOpen t => simp [stepFeed, hch]
  | chanMessage t raw => simp [stepFeed, hch]
  | chanError t r => simp [stepFeed, hch]
  | pollFire t r => simp [stepFeed, hnp]
  | termPollFire t => simp [stepFeed, htp]
  | teardown t =>
      cases s
      simp_all [stepFeed]

theorem runFeed_torn (s : FeedState) (evs : List FeedEvent)
    (hch : s.channelOpen = false) (hnp : s.nextPoll = none)
    (htp : s.termNextPoll = none) (htd : s.tornDown = true) :
    runFeed s evs = s := by
  induction evs with
  | nil => rfl
  | cons e rest ih =>
      show runFeed (stepFeed s e) rest = s
      rw [stepFeed_torn s e hch hnp htp htd]
      exact ih

/- ===================== FleetStatus rendering ===================== -/

/-- The view returned by the FleetStatus component body, in source order:
`if (loading && !data) return <Loading/>; if (error) return <error/>;
if (!data) return null;` otherwise the main snapshot view. -/
inductive RenderView
  | loadingView
  | errorView (msg : String)
  | nullView
  | mainView (d : FleetStatusResponse)
  deriving DecidableEq, Repr

/-- The FleetStatus render function over the feed state. -/
def render (s : FeedState) : RenderView :=
  if s.loading && s.data.isNone then .loadingView
  else
    match s.error with
    | some m => .errorView m
    | none =>
        match s.data with
        | none => .nullView
        | some d => .mainView d

/-- The Offline stat card value in the main view:
`data.total_count - data.online_count`, verbatim from the aggregate fields. -/
def displayedOffline (d : FleetStatusResponse) : Int :=
  d.total_count - d.online_count

/-- Wholesale replacement of the current snapshot by a delivered one
(`setData(json)`): no merging, previous value discarded. -/
def applySnapshot (_current : Option FleetStatusResponse) (d : FleetStatusResponse) :
    Option FleetStatusResponse :=
  some d

/-- Apply a sequence of snapshot deliveries in order. -/
def applyDeliveries (init : Option FleetStatusResponse) (ds : List FleetStatusResponse) :
    Option FleetStatusResponse :=
  ds.foldl applySnapshot init

/-- The offline count shown for the current snapshot, when one exists. -/
def renderedOffline (current : Option FleetStatusResponse) : Option Int :=
  current.map displayedOffline

/-- What recomputing offline from the agents array would give (the client
does not do this). -/
def recountedOffline (d : FleetStatusResponse) : Int :=
  ((d.agents.filter fun a => !a.online).length : Int)

/- ===================== Per-agent action eligibility (FleetControl.tsx) ===================== -/

/-- The JSX conditional `{!agent.online ? <Launch/> : <Kill/><Restart/>}`:
the Launch button exists exactly for offline agents. -/
def launchButtonRendered (a : Agent) : Bool :=
  !a.online

/-- Kill button existence (the other branch of the same conditional). -/
def killButtonRendered (a : Agent) : Bool :=
  a.online

/-- Restart button existence (same branch as Kill). -/
def restartButtonRendered (a : Agent) : Bool :=
  a.online

/-- The `disabled` attribute of Launch / Kill / Restart:
`actionLoading !== null`. -/
def lifecycleButtonDisabled (actionLoading : Option String) : Bool :=
  actionLoading.isSome

/-- The `disabled` attribute of Save / Pull / Nudge / Inbox:
`actionLoading !== null || (!agent.online && agent.type !== 'desktop')`. -/
def contextButtonDisabled (actionLoading : Option String) (a : Agent) : Bool :=
  actionLoading.isSome || (!a.online && !(a.type == some AgentType.desktop))

/-- Launch is offered for an agent (with no action in flight) when its button
is rendered and enabled. -/
def launchOffered (a : Agent) : Bool :=
  launchButtonRendered a && !lifecycleButtonDisabled none

/-- Kill offered (no action in flight). -/
def killOffered (a : Agent) : Bool :=
  killButtonRendered a && !lifecycleButtonDisabled none

/-- Restart offered (no action in flight). -/
def restartOffered (a : Agent) : Bool :=
  restartButtonRendered a && !lifecycleButtonDisabled none

/-- A context action (save-context / pull-context / nudge / check-inbox) is
offered (no action in flight) when its button is enabled. -/
def contextActionOffered (a : Agent) : Bool :=
  !contextButtonDisabled none a

/- ===================== Concrete sample values ===================== -/

/-- The scenario agent `{id:"a1", online:false, kind:"cli"}`. -/
def agentA1 : Agent :=
  { id := "a1", name := "a1", online := false, status := "", inbox_count := 0
    type := some AgentType.cli }

/-- The scenario snapshot `{agents:[a1], onlineCount:0, totalCount:1}`. -/
def snapA1 : FleetStatusResponse :=
  { agents := [agentA1], online_count := 0, total_count := 1 }

/-- A snapshot whose aggregate counts disagree with its agents array: the
rendered offline count (3) differs from a recount over the array (0). -/
def snapMismatch : FleetStatusResponse :=
  { agents := [], online_count := 2, total_count := 5 }

/-- The scenario modal descriptor `{title:"T", instruction:"I", command:"C"}`. -/
def modalTIC : ModalData :=
  { title := "T", instruction := "I", command := "C" }

/-- A feed state that has already obtained a snapshot and shows it. -/
def feedWithData : FeedState :=
  { initFeed with data := some snapA1, loading := false }

/- ===================== Claim theorems ===================== -/

/-- Claim C3: for every sequence of snapshot deliveries, the displayed offline
count equals `total_count - online_count` of the most recently applied
snapshot, taken verbatim from the aggregate fields; the last conjunct
exhibits a snapshot where this verbatim value differs from a recount over the
agents array, so the rendered value is not a recomputation. -/
theorem C3_offline_count_from_aggregates (init : Option FleetStatusResponse)
    (ds : List FleetStatusResponse) (d : FleetStatusResponse) :
    applyDeliveries init (ds ++ [d]) = some d ∧
    renderedOffline (applyDeliveries init (ds ++ [d])) = some (d.total_count - d.online_count) ∧
    displayedOffline snapMismatch ≠ recountedOffline snapMismatch := by
  have hlast : applyDeliveries init (ds ++ [d]) = some d := by
    simp [applyDeliveries, List.foldl_append, applySnapshot]
  refine ⟨hlast, ?_, by decide⟩
  rw [hlast]
  rfl

/-- Claim C7: per-agent eligibility as enforced by the rendered buttons with
no action in flight — launch exactly for offline agents, kill/restart exactly
for online agents, context actions exactly when online or desktop; plus the
scenario agent `{id:"a1", online:false, kind:"cli"}`. -/
theorem C7_action_eligibility (a : Agent) :
    (launchOffered a = true ↔ a.online = false) ∧
    (killOffered a = true ↔ a.online = true) ∧
    (restartOffered a = true ↔ a.online = true) ∧
    (contextActionOffered a = true ↔ (a.online = true ∨ a.type = some AgentType.desktop)) ∧
    launchOffered agentA1 = true ∧ killOffered agentA1 = false ∧
    restartOffered agentA1 = false := by
  refine ⟨?_, ?_, ?_, ?_, by decide, by decide, by decide⟩
  · simp [launchOffered, launchButtonRendered, lifecycleButtonDisabled]
  · simp [killOffered, killButtonRendered, lifecycleButtonDisabled]
  · simp [restartOffered, restartButtonRendered, lifecycleButtonDisabled]
  · cases ha : a.online <;>
      simp [contextActionOffered, contextButtonDisabled, ha, beq_iff_eq]

/-- Claim C10: with no stored credential the accessor returns the empty
string, and `doAction`/`doContextAction` still unconditionally issue the
request with an empty `X-API-Key` header; any failure comes back from the
server and is surfaced via the server-reported message. -/
theorem C10_empty_credential_still_dispatches (endpoint : String) (label : String) (b : Body) :
    getApiKey none = "" ∧
    doActionRequest none endpoint
      = some { method := "POST", url := "/api" ++ endpoint, apiKey := "" } ∧
    doContextActionRequest none endpoint
      = some { method := "POST", url := "/api" ++ endpoint, apiKey := "" } ∧
    (doActionResult label (.httpError b)).outcome = .failed (jsOr b.error "Action failed") :=
  ⟨rfl, rfl, rfl, rfl⟩

/-- Claim C2 counterexample: a successful non-modal context action
(`POST /fleet/context/save/a1` answering `{status:"saved"}`) produces a
`Completed` outcome but does not trigger any forced snapshot refresh, contrary
to the claim's "otherwise ... a forced refresh of the Fleet Snapshot is
triggered" (FleetControl is entirely on the non-streaming path). -/
theorem C2_counterexample_no_refresh_on_context_success :
    (doContextActionResult "Save a1"
        (HttpResult.ok { status := some "saved", error := none, modal := none })).outcome
      = Outcome.completed "Save a1: saved" ∧
    (doContextActionResult "Save a1"
        (HttpResult.ok { status := some "saved", error := none, modal := none })).refreshTriggered
      = false := by
  constructor
  · decide
  · decide

/-- The modal-carrying body of the C2 scenario. -/
def bodyModalTIC : Body :=
  { status := some "modal", error := none, modal := some modalTIC }

/-- Claim C2 (amended): on a successful response, a payload with
`status:"modal"` and a modal object yields `ModalRequired` with that
descriptor, in-flight cleared, no refresh; otherwise the outcome is
`Completed(label: status)`.  The forced snapshot refresh is triggered only by
actions dispatched through `doAction`; `doContextAction` never refreshes in
any branch. -/
theorem C2_amended_modal_and_refresh (label : String) (body : Body) (m : ModalData)
    (hs : body.status = some "modal") (hm : body.modal = some m) :
    ((doContextActionResult label (.ok body)).outcome = Outcome.modalRequired m ∧
     (doContextActionResult label (.ok body)).modal = some m ∧
     (doContextActionResult label (.ok body)).actionLoadingAfter = none ∧
     (doContextActionResult label (.ok body)).refreshTriggered = false) ∧
    (∀ (l : String) (b : Body), (doContextActionResult l (.ok b)).refreshTriggered = false) ∧
    (∀ (l : String) (b : Body), b.modal = none →
       (doContextActionResult l (.ok b)).outcome
         = Outcome.completed (l ++ ": " ++ jsTemplate b.status)) ∧
    (∀ (l : String) (b : Body),
       (doActionResult l (.ok b)).outcome = Outcome.completed (l ++ ": " ++ jsTemplate b.status) ∧
       (doActionResult l (.ok b)).refreshTriggered = true ∧
       (doActionResult l (.ok b)).actionLoadingAfter = none) := by
  refine ⟨?_, ?_, ?_, ?_⟩
  · simp [doContextActionResult, hs, hm]
  · intro l b
    simp only [doContextActionResult]
    split <;> rfl
  · intro l b hb
    simp only [doContextActionResult]
    split
    · simp_all
    · rfl
  · intro l b
    exact ⟨rfl, rfl, rfl⟩

/-- Claim C2 witness: the scenario payload
`{status:"modal", modal:{title:"T", instruction:"I", command:"C"}}` yields
`ModalRequired("T","I","C")`. -/
theorem C2_amended_modal_and_refresh_witness :
    bodyModalTIC.status = some "modal" ∧ bodyModalTIC.modal = some modalTIC ∧
    (doContextActionResult "Save a1" (.ok bodyModalTIC)).outcome
      = Outcome.modalRequired modalTIC :=
  ⟨rfl, rfl, (C2_amended_modal_and_refresh "Save a1" bodyModalTIC modalTIC rfl rfl).1.1⟩

/-- The HTTP-error body of the C9 kill scenario. -/
def bodyAgentBusy : Body :=
  { status := none, error := some "agent busy", modal := none }

/-- Claim C9 counterexample: `POST /fleet/kill/a1` answering an HTTP error
with `{error:"agent busy"}` yields `Failed("agent busy")` with the in-flight
marker cleared, but no auto-clear timer is ever scheduled on the banner
(`bannerTimeout = none`), contrary to the claimed 2-3 second self-clear. -/
theorem C9_counterexample_failed_banner_never_self_clears :
    (doActionResult "Kill a1" (.httpError bodyAgentBusy)).outcome
      = Outcome.failed "agent busy" ∧
    (doActionResult "Kill a1" (.httpError bodyAgentBusy)).actionLoadingAfter = none ∧
    (doActionResult "Kill a1" (.httpError bodyAgentBusy)).bannerTimeout = none := by
  refine ⟨by decide, rfl, rfl⟩

/-- Claim C9 (amended): in FleetControl no banner (success or failure) and no
modal ever gets a self-clear timer — they persist until the next action or an
explicit dismissal; in FleetStatus only the success banners self-clear
(fleet-inbox-check after 3000 ms, send-message after 2000 ms), failure
banners do not; the modal is cleared only by `closeModal`. -/
theorem C9_amended_banner_timers :
    (∀ (l : String) (r : HttpResult), (doActionResult l r).bannerTimeout = none) ∧
    (∀ (l : String) (r : HttpResult), (doContextActionResult l r).bannerTimeout = none) ∧
    (∀ b : Body, (fleetInboxCheckResult (.ok b)).bannerTimeout = some 3000) ∧
    (∀ b : Body, (fleetInboxCheckResult (.httpError b)).bannerTimeout = none) ∧
    (∀ m : String, (fleetInboxCheckResult (.networkFailure m)).bannerTimeout = none) ∧
    (∀ b : Body, (sendMessageToMainResult (.ok b)).bannerTimeout = some 2000) ∧
    (∀ b : Body, (sendMessageToMainResult (.httpError b)).bannerTimeout = none) ∧
    (∀ m : ModalData, closeModal (some m) = none) := by
  refine ⟨?_, ?_, fun b => rfl, fun b => rfl, fun m => rfl, fun b => rfl, fun b => rfl,
    fun m => rfl⟩
  · intro l r
    cases r <;> rfl
  · intro l r
    cases r with
    | ok b =>
        simp only [doContextActionResult]
        split <;> rfl
    | httpError b => rfl
    | networkFailure m => rfl

/-- Claim C1 counterexample: with an action in flight (`actionLoading` set by
a kill click), the send-message form — whose submit checks only its own
`sendingMessage` flag and the trimmed message / API key — still fires, so two
Action-Request network calls (kill and send-message) are open concurrently
while the in-flight identifier is set. -/
theorem C1_counterexample_send_message_not_locked :
    (runControl "key1" initControl
        [ControlEvent.clickAction "/fleet/kill/a1", ControlEvent.submitSend "hi"]).actionLoading
      = some "/fleet/kill/a1" ∧
    (runControl "key1" initControl
        [ControlEvent.clickAction "/fleet/kill/a1", ControlEvent.submitSend "hi"]).openActionCalls
      = 1 ∧
    (runControl "key1" initControl
        [ControlEvent.clickAction "/fleet/kill/a1", ControlEvent.submitSend "hi"]).openSendCalls
      = 1 := by
  refine ⟨by decide, by decide, by decide⟩

/-- Claim C1 (amended): the fleet-wide in-flight lock holds for all actions
dispatched through `doAction` / `doContextAction` — every such button is
disabled while `actionLoading` is set, so a second click is a no-op and at
most one such network call is ever open; the send-message form, however, is
guarded only by its independent `sendingMessage` flag and may overlap with
one in-flight action. -/
theorem C1_amended_action_lock (apiKey : String) (evs : List ControlEvent)
    (s : ControlState) (endpoint : String) (h : s.actionLoading.isSome = true) :
    (runControl apiKey initControl evs).openActionCalls ≤ 1 ∧
    stepControl apiKey s (.clickAction endpoint) = s := by
  constructor
  · have hinv := runControl_lockInv apiKey evs initControl (by simp [controlLockInv, initControl])
    unfold controlLockInv at hinv
    rw [hinv]
    split <;> omega
  · cases hA : s.actionLoading with
    | none => rw [hA] at h; simp at h
    | some v => simp [stepControl, hA]

/-- A FleetControl state with one action in flight. -/
def lockedControl : ControlState :=
  { actionLoading := some "/fleet/kill/a1", sendingMessage := false
    openActionCalls := 1, openSendCalls := 0 }

/-- Claim C1 witness: with `/fleet/kill/a1` in flight, a click on another
launch button changes nothing, and a concrete run keeps at most one open
`doAction`-family call. -/
theorem C1_amended_action_lock_witness :
    lockedControl.actionLoading.isSome = true ∧
    ((runControl "key1" initControl [ControlEvent.clickAction "/fleet/kill/a1"]).openActionCalls ≤ 1 ∧
     stepControl "key1" lockedControl (.clickAction "/fleet/launch/a2") = lockedControl) :=
  ⟨rfl, C1_amended_action_lock "key1" [ControlEvent.clickAction "/fleet/kill/a1"]
    lockedControl "/fleet/launch/a2" rfl⟩

/-- A stream message is "bad" when it failed to parse (`none`) or carries a
truthy error field. -/
def badStream (raw : Option StreamPayload) : Bool :=
  match raw with
  | none => true
  | some p => p.err

/-- Claim C5: an inbound stream message that fails to parse or carries an
error indicator is ignored completely — the whole component state (current
snapshot, error state, channel, timers) is left unchanged. -/
theorem C5_bad_stream_message_ignored (s : FeedState) (t : Nat) (raw : Option StreamPayload)
    (h : badStream raw = true) :
    stepFeed s (.chanMessage t raw) = s := by
  have hmsg : handleStreamMessage s raw = s := by
    cases raw with
    | none => rfl
    | some p =>
        have hp : p.err = true := h
        simp [handleStreamMessage, hp]
  simp only [stepFeed]
  cases hc : s.channelOpen <;> simp [hc, hmsg]

/-- A stream payload carrying an error indicator. -/
def errPayload : StreamPayload :=
  { err := true, snap := snapA1 }

/-- Claim C5 witness: a concrete error-carrying message leaves a state that
already holds a snapshot untouched. -/
theorem C5_bad_stream_message_ignored_witness :
    badStream (some errPayload) = true ∧
    stepFeed feedWithData (.chanMessage 9 (some errPayload)) = feedWithData :=
  ⟨rfl, C5_bad_stream_message_ignored feedWithData 9 (some errPayload) rfl⟩

/-- Claim C6 counterexample: with a prior snapshot already obtained (the main
view is showing it), a single failed one-shot fetch sets the error state and
the component renders the error-only view in place of the snapshot — the
failure is surfaced even though a last-known-good snapshot exists. -/
theorem C6_counterexample_error_replaces_snapshot :
    render feedWithData = RenderView.mainView snapA1 ∧
    (applyFetch feedWithData (.fail "Failed to fetch fleet status")).data = some snapA1 ∧
    render (applyFetch feedWithData (.fail "Failed to fetch fleet status"))
      = RenderView.errorView "Failed to fetch fleet status" :=
  ⟨rfl, rfl, rfl⟩

/-- Claim C6 (amended): a failed one-shot fetch always records the failure
message and the rendered view becomes the blocking error view, whether or not
a prior snapshot exists; the stale snapshot is kept as the current data value
(never discarded) and is shown again as soon as a subsequent successful
delivery clears the error. -/
theorem C6_amended_fetch_failure_always_surfaced (s : FeedState) (m : String)
    (snap : FleetStatusResponse) :
    (applyFetch s (.fail m)).data = s.data ∧
    (applyFetch s (.fail m)).error = some m ∧
    render (applyFetch s (.fail m)) = RenderView.errorView m ∧
    render (applyFetch s (.ok snap)) = RenderView.mainView snap := by
  refine ⟨rfl, rfl, ?_, ?_⟩
  · simp [render, applyFetch]
  · simp [render, applyFetch]

/-- Claim C4: when the streaming channel errors, the handler closes the
channel, switches the mode to polling (bumping the transition count), issues
a one-shot fetch immediately at the error's own time (not an interval later),
and schedules the next poll 5000 ms out; thereafter the channel stays closed,
the mode stays polling and the transition count never changes again (no
reconnect attempt exists in the session), and every effective interval fire
logs exactly its scheduled time and reschedules 5000 ms later. -/
theorem C4_channel_error_falls_back_to_polling_once (s : FeedState) (t : Nat)
    (r : FetchResult) (evs : List FeedEvent) (hopen : s.channelOpen = true) :
    (stepFeed s (.chanError t r)).channelOpen = false ∧
    (stepFeed s (.chanError t r)).connectionType = ConnectionType.polling ∧
    (stepFeed s (.chanError t r)).sseToPollingCount = s.sseToPollingCount + 1 ∧
    (stepFeed s (.chanError t r)).fetchLog = s.fetchLog ++ [t] ∧
    (stepFeed s (.chanError t r)).nextPoll = some (t + 5000) ∧
    (runFeed (stepFeed s (.chanError t r)) evs).channelOpen = false ∧
    (runFeed (stepFeed s (.chanError t r)) evs).connectionType = ConnectionType.polling ∧
    (runFeed (stepFeed s (.chanError t r)) evs).sseToPollingCount = s.sseToPollingCount + 1 ∧
    (∀ (s2 : FeedState) (u : Nat) (r2 : FetchResult), s2.nextPoll = some u →
       (stepFeed s2 (.pollFire u r2)).fetchLog = s2.fetchLog ++ [u] ∧
       (stepFeed s2 (.pollFire u r2)).nextPoll = some (u + 5000)) := by
  have hch : (stepFeed s (.chanError t r)).channelOpen = false := by
    simp [stepFeed, hopen, applyFetch_channelOpen]
  have hct : (stepFeed s (.chanError t r)).connectionType = ConnectionType.polling := by
    simp [stepFeed, hopen, applyFetch_connectionType]
  have hcnt : (stepFeed s (.chanError t r)).sseToPollingCount = s.sseToPollingCount + 1 := by
    simp [stepFeed, hopen, applyFetch_sseToPollingCount]
  obtain ⟨g1, g2, g3⟩ := runFeed_closed (stepFeed s (.chanError t r)) evs hch
  refine ⟨hch, hct, hcnt, ?_, ?_, g1, g2.trans hct, g3.trans hcnt, ?_⟩
  · simp [stepFeed, hopen, applyFetch_fetchLog]
  · simp [stepFeed, hopen, applyFetch_nextPoll]
  · intro s2 u r2 h2
    constructor
    · simp [stepFeed, h2, applyFetch_fetchLog]
    · simp [stepFeed, h2, applyFetch_nextPoll]

/-- Claim C4 witness: the freshly mounted state erroring at time 7. -/
theorem C4_channel_error_falls_back_to_polling_once_witness :
    initFeed.channelOpen = true ∧
    ((stepFeed initFeed (.chanError 7 (.fail "boom"))).channelOpen = false ∧
     (stepFeed initFeed (.chanError 7 (.fail "boom"))).connectionType = ConnectionType.polling ∧
     (stepFeed initFeed (.chanError 7 (.fail "boom"))).sseToPollingCount
       = initFeed.sseToPollingCount + 1 ∧
     (stepFeed initFeed (.chanError 7 (.fail "boom"))).fetchLog = initFeed.fetchLog ++ [7] ∧
     (stepFeed initFeed (.chanError 7 (.fail "boom"))).nextPoll = some (7 + 5000) ∧
     (runFeed (stepFeed initFeed (.chanError 7 (.fail "boom"))) []).channelOpen = false ∧
     (runFeed (stepFeed initFeed (.chanError 7 (.fail "boom"))) []).connectionType
       = ConnectionType.polling ∧
     (runFeed (stepFeed initFeed (.chanError 7 (.fail "boom"))) []).sseToPollingCount
       = initFeed.sseToPollingCount + 1 ∧
     (∀ (s2 : FeedState) (u : Nat) (r2 : FetchResult), s2.nextPoll = some u →
        (stepFeed s2 (.pollFire u r2)).fetchLog = s2.fetchLog ++ [u] ∧
        (stepFeed s2 (.pollFire u r2)).nextPoll = some (u + 5000))) :=
  ⟨rfl, C4_channel_error_falls_back_to_polling_once initFeed 7 (.fail "boom") [] rfl⟩

/-- Claim C8: teardown closes the channel and clears both the fallback
polling interval and the terminal-poll interval synchronously, and the
torn-down state absorbs every further event: no event sequence of any length
changes it, so no further `GET /api/fleet/status` is logged and no further
snapshot update is delivered. -/
theorem C8_teardown_cancels_all (s : FeedState) (t : Nat) (evs : List FeedEvent) :
    (stepFeed s (.teardown t)).channelOpen = false ∧
    (stepFeed s (.teardown t)).nextPoll = none ∧
    (stepFeed s (.teardown t)).termNextPoll = none ∧
    runFeed (stepFeed s (.teardown t)) evs = stepFeed s (.teardown t) ∧
    (runFeed (stepFeed s (.teardown t)) evs).fetchLog = s.fetchLog ∧
    (runFeed (stepFeed s (.teardown t)) evs).data = s.data := by
  have hfix : runFeed (stepFeed s (.teardown t)) evs = stepFeed s (.teardown t) :=
    runFeed_torn _ evs rfl rfl rfl rfl
  refine ⟨rfl, rfl, rfl, hfix, ?_, ?_⟩
  · rw [hfix]; rfl
  · rw [hfix]; rfl
